import Mathlib

/-!
Verification development for the catalogue document generation engine
(`pdf_generator.py` and its caller `ui/tab_export.py`).

Modelling conventions:
* Python strings are modelled as `List Char` (`Str`), so every operation
  reduces inside the kernel.  `str.lower()/.upper()` become character maps,
  `str.strip()` strips whitespace on both ends, and the Python substring
  test `a in b` becomes `substrOf`.
* A pandas `DataFrame` row sequence is modelled as `List (Nat × Record)`:
  each row is paired with its index label (what `iterrows()` yields), which
  after `sort_values` without `reset_index` is not necessarily the row's
  position.
* A pandas row dictionary (`case_selection_map[cat]`, insertion ordered) is
  an association list `CaseData := List (Str × Str)`; values are modelled
  already stringified (a pandas `NaN` value stringifies to `"nan"`, which is
  how the source code itself detects it).
* Emitted HTML parts become structured `Fragment`s carrying exactly the
  data interpolated into the corresponding f-string of the source; the
  surrounding constant markup is not re-modelled.
-/

/-- A Python string, modelled as its character sequence. -/
abbrev Str := List Char

/-- Python `str.lower()` (ASCII case mapping, which is all the source uses). -/
def toLowerS (s : Str) : Str := s.map Char.toLower

/-- Python `str.upper()`. -/
def toUpperS (s : Str) : Str := s.map Char.toUpper

/-- Strip leading whitespace characters, as Python `str.lstrip()`. -/
def lstripS : Str → Str
  | [] => []
  | c :: t => if c.isWhitespace then lstripS t else c :: t

/-- Python `str.strip()`: whitespace removed from both ends. -/
def stripS (s : Str) : Str := ((lstripS s.reverse).reverse |> lstripS)

/-- Python substring containment `needle in hay`. -/
def substrOf (needle : Str) : Str → Bool
  | [] => needle.isEmpty
  | c :: t => needle.isPrefixOf (c :: t) || substrOf needle t

/-- A loosely keyed case-size row (`case_selection_map[category]`), an
insertion-ordered mapping from column label to (stringified) value. -/
abbrev CaseData := List (Str × Str)

/-- Function `get_val_fuzzy` of `pdf_generator`: for each candidate fragment in priority
order, scan the mapping keys in iteration order and return the value of the
first key containing the fragment case-insensitively; `"-"` if none match. -/
def get_val_fuzzy (row_data : CaseData) : List Str → Str
  | [] => ['-']
  | k :: rest =>
    match row_data.find? (fun p => substrOf (toLowerS k) (toLowerS p.1)) with
    | some p => p.2
    | none => get_val_fuzzy row_data rest

/-- One product row of the export DataFrame (`df_sorted`), with the fields
the generators read.  `subcategory = none` models an absent value fetched by
`row.get('Subcategory', '')` (which yields `''`); a pandas `NaN` cell is
modelled as the literal string `"nan"`, matching its `str()` form. -/
structure Record where
  catalogue : Str
  category : Str
  subcategory : Option Str
  itemName : Str
  imageB64 : Str
  isNew : Nat
deriving DecidableEq, Repr

/-- Lowercase table used by the anchor sanitiser. -/
def lowerPairs : List (Char × Char) :=
  [('A', 'a'), ('B', 'b'), ('C', 'c'), ('D', 'd'), ('E', 'e'), ('F', 'f'),
   ('G', 'g'), ('H', 'h'), ('I', 'i'), ('J', 'j'), ('K', 'k'), ('L', 'l'),
   ('M', 'm'), ('N', 'n'), ('O', 'o'), ('P', 'p'), ('Q', 'q'), ('R', 'r'),
   ('S', 's'), ('T', 't'), ('U', 'u'), ('V', 'v'), ('W', 'w'), ('X', 'x'),
   ('Y', 'y'), ('Z', 'z')]

/-- ASCII lowercase of a single character, by table lookup. -/
def asciiLower (c : Char) : Char :=
  match lowerPairs.find? (fun p => p.1 = c) with
  | some p => p.2
  | none => c

/-- Map a character to its anchor-safe form: alphanumerics are lower-cased,
everything else becomes the `'-'` separator. -/
def sanitizeChar (c : Char) : Char :=
  if c.isAlphanum then asciiLower c else '-'

/-- Collapse runs of consecutive `'-'` characters to a single one. -/
def collapseDash : Str → Str
  | [] => []
  | c :: t =>
    match collapseDash t with
    | [] => [c]
    | d :: u => if c = '-' ∧ d = '-' then d :: u else c :: d :: u

/-- Modelled from the spec: `create_safe_id` lives in the repository's
`data_loader` module, which is not among the provided sources (only its
importers are).  Per the spec (section 4.2) the anchor identifier is a
deterministic function of the category name, lower-cased, with runs of
non-alphanumeric characters collapsed to a single separator. -/
def create_safe_id (name : Str) : Str :=
  collapseDash (name.map sanitizeChar)

/-- The stripped subcategory value the product loop computes:
`str(row.get('Subcategory', '')).strip()`. -/
def subVal (r : Record) : Str := stripS (r.subcategory.getD [])

/-- The guard of the subcategory-header block:
`sub_val.upper() != 'N/A' and sub_val.lower() != 'nan' and sub_val != ''`. -/
def subEmits (v : Str) : Bool :=
  !(toUpperS v == "N/A".toList) && !(toLowerS v == "nan".toList) && !(v == [])

/-- Structured stand-ins for the HTML parts appended by `generate_pdf_html`
(and its helpers); each constructor records the data the corresponding
f-string interpolates. -/
inductive Fragment where
  /-- The CSS/head preamble plus the watermark layer. -/
  | cssHeader : Fragment
  /-- The full-bleed cover page. -/
  | coverPage : Fragment
  /-- The fixed story / journey page. -/
  | storyPage : Fragment
  /-- Opening of the table-of-contents page(`#main-index`). -/
  | tocStart : Fragment
  /-- A TOC catalogue section header. -/
  | tocCatalogue (name : Str) : Fragment
  /-- A TOC category card: representative image, `href` link target, label. -/
  | tocCard (bg : Str) (href : Str) (label : Str) : Fragment
  /-- Opening of the main `catalogue-content` wrapper. -/
  | contentOpen : Fragment
  /-- The `<h1 class="catalogue-heading">` bar, with its page-break flag. -/
  | catalogueHeading (name : Str) (pageBreak : Bool) : Fragment
  /-- The `</div>` closing an open category block. -/
  | categoryClose : Fragment
  /-- The `<div class="category-block clearfix">` opener. -/
  | categoryBlockOpen : Fragment
  /-- The `<h2 class="category-heading" id=...>` heading, with its anchor id and name. -/
  | categoryHeading (anchorId : Str) (name : Str) : Fragment
  /-- The `case-size-info` description line. -/
  | caseSizeInfo (desc : Str) : Fragment
  /-- The case-size table and its seven fuzzily resolved cells. -/
  | caseSizeTable (packing gross net len breadth height cbm : Str) : Fragment
  /-- The blue `subcat-pdf-header` sidebar header. -/
  | subcatHeader (name : Str) : Fragment
  /-- One product card: display number (`index+1`), item name, NEW badge
  flag, and the tiered font size.  The embedded image markup depends only on
  the external image-resolution collaborator and the row's own payload, not
  on the grouping state, and is not re-modelled. -/
  | productCard (number : Nat) (name : Str) (isNew : Bool) (fontSize : String) : Fragment
  /-- The closing of the content wrapper and document. -/
  | contentClose : Fragment
deriving DecidableEq, Repr

/-- The tracking variables of the product-grid loop. -/
structure GenState where
  currentCatalogue : Option Str
  currentCategory : Option Str
  currentSubcategory : Option Str
  isFirstItem : Bool
  categoryOpen : Bool
deriving DecidableEq, Repr

/-- The loop's initial tracker values. -/
def initState : GenState :=
  { currentCatalogue := none, currentCategory := none, currentSubcategory := none,
    isFirstItem := true, categoryOpen := false }

/-- Exact-key dictionary access `row_data.get(key, '')`. -/
def dictGet (rd : CaseData) (key : Str) : Str :=
  ((rd.find? (fun p => p.1 = key)).map (fun p => p.2)).getD []

/-- Exact-key lookup in `case_selection_map`. -/
def lookupCase (caseMap : List (Str × CaseData)) (cat : Str) : Option CaseData :=
  (caseMap.find? (fun p => p.1 = cat)).map (fun p => p.2)

/-- The `--- New Catalogue Section ---` block of the loop body. -/
def catalogueStep (s : GenState) (r : Record) : List Fragment × GenState :=
  if s.currentCatalogue = some r.catalogue then ([], s)
  else
    ((if s.categoryOpen then [Fragment.categoryClose] else []) ++
       [Fragment.catalogueHeading r.catalogue (!s.isFirstItem)],
     { s with currentCatalogue := some r.catalogue, currentCategory := none,
              currentSubcategory := none, isFirstItem := false,
              categoryOpen := false })

/-- The case-size fragments of a new category section: when the mapped
case-size row is non-empty, the optional description line followed by the
fuzzily resolved seven-cell table. -/
def caseSizeFrags (rd : CaseData) : List Fragment :=
  if rd ≠ [] then
    (if dictGet rd "Description".toList ≠ [] then
      [Fragment.caseSizeInfo (dictGet rd "Description".toList)]
     else []) ++
    [Fragment.caseSizeTable
      (get_val_fuzzy rd ["Packing".toList, "Master Ctn".toList])
      (get_val_fuzzy rd ["Gross Wt".toList, "Gross Weight".toList])
      (get_val_fuzzy rd ["Net Wt".toList, "Net Weight".toList])
      (get_val_fuzzy rd ["Length".toList])
      (get_val_fuzzy rd ["Breadth".toList, "Width".toList])
      (get_val_fuzzy rd ["Height".toList])
      (get_val_fuzzy rd ["CBM".toList])]
  else []

/-- The `--- New Category Section ---` block of the loop body: closes the
previous block, opens the new one with its anchored heading, then emits the
case-size fragments. -/
def categoryStep (caseMap : List (Str × CaseData)) (s : GenState) (r : Record) :
    List Fragment × GenState :=
  if s.currentCategory = some r.category then ([], s)
  else
    ((if s.categoryOpen then [Fragment.categoryClose] else []) ++
       [Fragment.categoryBlockOpen,
        Fragment.categoryHeading ("category-".toList ++ create_safe_id r.category)
          r.category] ++
       caseSizeFrags ((lookupCase caseMap r.category).getD []),
     { s with currentCategory := some r.category, currentSubcategory := none,
              categoryOpen := true })

/-- The `--- Subcategory Header ---` block. -/
def subcatStep (s : GenState) (r : Record) : List Fragment × GenState :=
  if subEmits (subVal r) then
    if s.currentSubcategory ≠ some (subVal r) then
      ([Fragment.subcatHeader (subVal r)],
       { s with currentSubcategory := some (subVal r) })
    else ([], s)
  else ([], s)

/-- The product card built at the end of the loop body: display number is
`index+1` (the row's DataFrame index label plus one), the font size is tiered
by name length with breakpoints 30 and 50, and the NEW badge shows when
`IsNew == 1`. -/
def cardFrag (idx : Nat) (r : Record) : Fragment :=
  Fragment.productCard (idx + 1) r.itemName (r.isNew = 1)
    (if r.itemName.length < 30 then "9pt"
     else if r.itemName.length < 50 then "8pt" else "7pt")

/-- One iteration of the product loop of `generate_pdf_html`, over a row
`(idx, r)` as yielded by `df_sorted.iterrows()`. -/
def pdf_step (caseMap : List (Str × CaseData)) (s : GenState) (idx : Nat)
    (r : Record) : List Fragment × GenState :=
  let c1 := catalogueStep s r
  let c2 := categoryStep caseMap c1.2 r
  let c3 := subcatStep c2.2 r
  (c1.1 ++ c2.1 ++ c3.1 ++ [cardFrag idx r], c3.2)

/-- The whole product loop: fold `pdf_step` over the rows, accumulating
fragments in order. -/
def processRows (caseMap : List (Str × CaseData)) :
    GenState → List (Nat × Record) → List Fragment × GenState
  | s, [] => ([], s)
  | s, (idx, r) :: rest =>
    let c := pdf_step caseMap s idx r
    let d := processRows caseMap c.2 rest
    (c.1 ++ d.1, d.2)

/-- First-occurrence deduplication, as pandas `Series.unique()`. -/
def uniqueKeep (l : List Str) : List Str :=
  l.foldl (fun acc x => if x ∈ acc then acc else acc ++ [x]) []

/-- The representative image chosen for a TOC category card: the first row
of the group whose payload is present and longer than 100 characters. -/
def rep_image (group : List Record) : Str :=
  match group.find? (fun r => decide (100 < r.imageB64.length)) with
  | some r => r.imageB64
  | none => []

/-- Function `generate_table_of_contents_html`: one section per distinct catalogue in
first-appearance order, one card per distinct category inside it, each card
linking to `#category-<safe id>`. -/
def generate_table_of_contents (df : List (Nat × Record)) : List Fragment :=
  Fragment.tocStart ::
    (uniqueKeep (df.map (fun p => p.2.catalogue))).flatMap (fun cat =>
      let catDf := df.filter (fun p => p.2.catalogue = cat)
      Fragment.tocCatalogue cat ::
        (uniqueKeep (catDf.map (fun p => p.2.category))).map (fun c =>
          Fragment.tocCard
            (rep_image ((catDf.filter (fun p => p.2.category = c)).map (fun p => p.2)))
            ('#' :: ("category-".toList ++ create_safe_id c)) c))

/-- Function `generate_pdf_html` as the structured fragment sequence it assembles:
preamble, cover, story, table of contents, then the product loop, closing a
still-open category block at the end. -/
def generate_pdf_html (df : List (Nat × Record))
    (caseMap : List (Str × CaseData)) : List Fragment :=
  let body := processRows caseMap initState df
  [Fragment.cssHeader, Fragment.coverPage, Fragment.storyPage] ++
    generate_table_of_contents df ++
    [Fragment.contentOpen] ++ body.1 ++
    (if body.2.categoryOpen then [Fragment.categoryClose] else []) ++
    [Fragment.contentClose]

/-- The display numbers of the product cards, in emission order. -/
def cardNumbers (fs : List Fragment) : List Nat :=
  fs.filterMap (fun f =>
    match f with
    | Fragment.productCard n _ _ _ => some n
    | _ => none)

/-- The fragments emitted for the single row `(idx, r)` when it follows the
rows `pre` in one pass of the product loop. -/
def fragsFor (caseMap : List (Str × CaseData)) (pre : List (Nat × Record))
    (idx : Nat) (r : Record) : List Fragment :=
  (pdf_step caseMap (processRows caseMap initState pre).2 idx r).1

/-- Value of an unsigned digit run, as Python `int`/`float` digit parsing. -/
def digitsToNat (ds : Str) : Nat := ds.foldl (fun n c => n * 10 + (c.toNat - 48)) 0

/-- Modelled from the Python builtin `float()` as applied by
`generate_excel_file`: parses an optional sign and a decimal literal with an
optional fractional part into an exact rational; any other string (such as
`"abc"`) raises `ValueError`, modelled as `none`.  Exponent forms and the
IEEE `inf`/`nan` literals, which never occur in this repository's case-size
data, are not modelled. -/
def parsePyFloat? (s : Str) : Option ℚ :=
  let t := stripS s
  let neg := t.head? = some '-'
  let t := if t.head? = some '-' ∨ t.head? = some '+' then t.tail else t
  let ip := t.takeWhile Char.isDigit
  let rest := t.dropWhile Char.isDigit
  let signed : ℚ → ℚ := fun x => if neg then -x else x
  match rest with
  | [] => if ip = [] then none else some (signed (digitsToNat ip : ℚ))
  | '.' :: frac =>
    if frac.all Char.isDigit ∧ (ip ≠ [] ∨ frac ≠ []) then
      some (signed ((digitsToNat ip : ℚ) + (digitsToNat frac : ℚ) / ((10 : ℚ) ^ frac.length)))
    else none
  | _ => none

/-- The floor of a rational, computed on its reduced numerator and
denominator. -/
def ratFloor (q : ℚ) : ℤ := q.num.fdiv (q.den : ℤ)

/-- Modelled from the Python builtin `round(x, 3)`: round to three decimal
places, ties to even, on exact rationals. -/
def pyRound3 (q : ℚ) : ℚ :=
  let m := q * 1000
  let f : ℤ := ratFloor m
  let r : ℤ :=
    if m - (f : ℚ) < 1/2 then f
    else if 1/2 < m - (f : ℚ) then f + 1
    else if f % 2 = 0 then f else f + 1
  (r : ℚ) / 1000

/-- One iteration of the suffix/CBM extraction loop of
`generate_excel_file`: a key containing `"suffix"` overwrites the suffix
with its stripped value, a key containing `"cbm"` overwrites the carton
volume with its rounded parse (an unparseable value coerced to `0.0`). -/
def scanStep (acc : Str × ℚ) (kv : Str × Str) : Str × ℚ :=
  (if substrOf "suffix".toList (toLowerS kv.1) then stripS kv.2 else acc.1,
   if substrOf "cbm".toList (toLowerS kv.1) then
     match parsePyFloat? kv.2 with
     | some q => pyRound3 q
     | none => 0
   else acc.2)

/-- The whole suffix/CBM extraction loop: scan every key of the case-size
row in iteration order, later matches overwriting earlier ones. -/
def scanCaseData (case_data : CaseData) : Str × ℚ :=
  case_data.foldl scanStep ([], 0)

/-- One data row of the order sheet (`excel_rows` entry); the constant-zero
order-quantity and total-CBM columns are emitted by the write phase. -/
structure ExcelRow where
  refNo : Nat
  category : Str
  fullName : Str
  cbm : ℚ
deriving DecidableEq, Repr

/-- The per-record body of the `excel_rows` loop: resolve suffix and carton
volume from the category's case-size row (suppressing a literal `"nan"`
suffix), append the suffix to the stripped product name, and take `idx + 1`
— the row's DataFrame index label plus one — as `Ref No`. -/
def excel_row (caseMap : List (Str × CaseData)) (idx : Nat) (r : Record) :
    ExcelRow :=
  let sc :=
    match lookupCase caseMap r.category with
    | some cd =>
      let p := scanCaseData cd
      (if p.1 = "nan".toList then [] else p.1, p.2)
    | none => ([], 0)
  let base := stripS r.itemName
  { refNo := idx + 1, category := r.category,
    fullName := if sc.1 ≠ [] then base ++ [' '] ++ sc.1 else base,
    cbm := sc.2 }

/-- All data rows of the order sheet, in DataFrame order. -/
def generate_excel_rows (df : List (Nat × Record))
    (caseMap : List (Str × CaseData)) : List ExcelRow :=
  df.map (fun p => excel_row caseMap p.1 p.2)

/-- The `Ref No` column of the generated rows. -/
def refNos (rows : List ExcelRow) : List Nat := rows.map (fun r => r.refNo)

/-- A cell payload: a string or a number. -/
inductive CellVal where
  | s (v : Str)
  | n (v : ℚ)
deriving DecidableEq, Repr

/-- One worksheet write: a literal value or a live formula, at (0-based)
row/column coordinates. -/
inductive CellWrite where
  | val (row col : Nat) (v : CellVal)
  | formula (row col : Nat) (f : Str)
deriving DecidableEq, Repr

/-- The row coordinate of a write. -/
def CellWrite.rowOf : CellWrite → Nat
  | .val r _ _ => r
  | .formula r _ _ => r

/-- The column coordinate of a write. -/
def CellWrite.colOf : CellWrite → Nat
  | .val _ c _ => c
  | .formula _ c _ => c

/-- Decimal rendering of a number interpolated into a formula f-string. -/
def natToStr (n : Nat) : Str := (toString n).toList

/-- The order-sheet column labels, in DataFrame column order. -/
def excelColumns : List Str :=
  ["Ref No".toList, "Category".toList, "Product Name + Carton Name".toList,
   "Carton per CBM".toList, "Order Quantity (Cartons)".toList, "Total CBM".toList]

/-- The column-header writes at worksheet row 7 (emitted once by
`to_excel(startrow=7)` and again by the explicit header-format loop). -/
def headerRowWrites : List CellWrite :=
  [CellWrite.val 7 0 (CellVal.s ("Ref No".toList)),
   CellWrite.val 7 1 (CellVal.s ("Category".toList)),
   CellWrite.val 7 2 (CellVal.s ("Product Name + Carton Name".toList)),
   CellWrite.val 7 3 (CellVal.s ("Carton per CBM".toList)),
   CellWrite.val 7 4 (CellVal.s ("Order Quantity (Cartons)".toList)),
   CellWrite.val 7 5 (CellVal.s ("Total CBM".toList))]

/-- The six cell writes `to_excel` performs for data row `i` (worksheet row
`8 + i`): Ref No, category, name, carton volume, and the literal zeros of
the quantity and total columns. -/
def dataRowWrites (i : Nat) (r : ExcelRow) : List CellWrite :=
  [CellWrite.val (8 + i) 0 (CellVal.n (r.refNo : ℚ)),
   CellWrite.val (8 + i) 1 (CellVal.s r.category),
   CellWrite.val (8 + i) 2 (CellVal.s r.fullName),
   CellWrite.val (8 + i) 3 (CellVal.n r.cbm),
   CellWrite.val (8 + i) 4 (CellVal.n 0),
   CellWrite.val (8 + i) 5 (CellVal.n 0)]

/-- The `to_excel` data-region writes for rows starting at counter `i`. -/
def allDataWrites : Nat → List ExcelRow → List CellWrite
  | _, [] => []
  | i, r :: t => dataRowWrites i r ++ allDataWrites (i + 1) t

/-- The summary-block writes (worksheet rows 1–6 of the source's A1
notation): title, the `=SUM(F9:F{n+9})` total-volume formula at C2, the
container table labels and the three divisor formulas. -/
def excelSummaryWrites (customer : Str) (n : Nat) : List CellWrite :=
  [CellWrite.val 0 1 (CellVal.s ("Order Sheet for: ".toList ++ customer)),
   CellWrite.val 1 1 (CellVal.s ("Total CBM:".toList)),
   CellWrite.formula 1 2 ("=SUM(F9:F".toList ++ natToStr (n + 9) ++ ")".toList),
   CellWrite.val 2 1 (CellVal.s ("CONTAINER TYPE".toList)),
   CellWrite.val 2 2 (CellVal.s ("ESTIMATED CONTAINERS".toList)),
   CellWrite.val 3 1 (CellVal.s ("20 FT (30 CBM)".toList)),
   CellWrite.val 4 1 (CellVal.s ("40 FT (60 CBM)".toList)),
   CellWrite.val 5 1 (CellVal.s ("40 FT HC (70 CBM)".toList)),
   CellWrite.formula 3 2 ("=$C$2/30".toList),
   CellWrite.formula 4 2 ("=$C$2/60".toList),
   CellWrite.formula 5 2 ("=$C$2/70".toList)]

/-- The final per-row loop: rewrite the editable quantity cell (column E)
with the unlocked format and overwrite the total-volume cell (column F) with
the live formula `=D{row}*E{row}`, for `i` in `range(n)`. -/
def qtyFormulaWrites : Nat → Nat → List CellWrite
  | _, 0 => []
  | i, m + 1 =>
    [CellWrite.val (8 + i) 4 (CellVal.n 0),
     CellWrite.formula (8 + i) 5
       ("=D".toList ++ natToStr (i + 9) ++ "*E".toList ++ natToStr (i + 9))] ++
    qtyFormulaWrites (i + 1) m

/-- The produced workbook: the ordered list of cell writes (a later write to
the same cell replaces an earlier one, as in xlsxwriter), plus the
protection flag and frozen panes.  Cell formats and column widths carry no
claim-relevant data and are not modelled. -/
structure ExcelSheet where
  writes : List CellWrite
  sheetProtected : Bool
  freezeRow : Nat
  freezeCol : Nat
deriving DecidableEq, Repr

/-- Function `generate_excel_file`: build the data rows, then perform the writes in
source order — `to_excel` (header row and data region), summary block,
header-row rewrite, and the quantity/total-formula loop. -/
def generate_excel_file (df : List (Nat × Record)) (customer : Str)
    (caseMap : List (Str × CaseData)) : ExcelSheet :=
  let rows := generate_excel_rows df caseMap
  let n := rows.length
  { writes :=
      headerRowWrites ++ allDataWrites 0 rows ++
      excelSummaryWrites customer n ++
      headerRowWrites ++
      qtyFormulaWrites 0 n,
    sheetProtected := true, freezeRow := 8, freezeCol := 0 }

/-- The write that determines a cell's final content: the last write
targeting the given coordinates, as xlsxwriter keeps the latest write. -/
def lastWriteAt (ws : List CellWrite) (r c : Nat) : Option CellWrite :=
  (ws.filter (fun w => w.rowOf = r ∧ w.colOf = c)).getLast?

/-- Document bytes, abstractly. -/
abbrev Bytes := List Nat

/-- The exact no-backend message returned by `render_pdf`. -/
def noEngineMsg : Str :=
  ("No PDF engine found! On Streamlit Cloud: \x27weasyprint\x27 is in requirements.txt. Locally: install wkhtmltopdf from https://wkhtmltopdf.org").toList

/-- Function `render_pdf`, with its ambient inputs made explicit: the module-level
`CONFIG` (present exactly when a wkhtmltopdf binary was discovered at import
time), the `HAS_WEASYPRINT` flag, and the two backends, each either
returning document bytes or raising — modelled as `Except` carrying the
exception's message.  The body's single try/except catches any backend raise
and returns `(None, str(e))`; with no backend it returns the actionable
message. -/
def render_pdf {Html : Type} (config : Option Unit) (hasWeasyprint : Bool)
    (pdfkitFromString weasyWritePdf : Html → Except Str Bytes)
    (html : Html) : Option Bytes × Str :=
  if config.isSome then
    match pdfkitFromString html with
    | Except.ok b => (some b, "PDFKit (Local)".toList)
    | Except.error e => (none, e)
  else if hasWeasyprint then
    match weasyWritePdf html with
    | Except.ok b => (some b, "WeasyPrint (Cloud)".toList)
    | Except.error e => (none, e)
  else (none, noEngineMsg)

/-- What the export tab hands back to the session after the generate button:
the spreadsheet, the optional document bytes, and the engine name or error
message. -/
structure ExportOutputs where
  gen_excel_bytes : ExcelSheet
  gen_pdf_bytes : Option Bytes
  pdf_message : Str
deriving DecidableEq, Repr

/-- The generate branch of `ui/tab_export.render_export_tab`: the
spreadsheet is generated and stored first, then the document HTML is built
and rendered; on failure only the document slot is cleared
(`gen_pdf_bytes = None`) and the message surfaced. -/
def render_export_generate (df : List (Nat × Record))
    (caseMap : List (Str × CaseData)) (customer : Str)
    (config : Option Unit) (hasWeasyprint : Bool)
    (pdfkitFromString weasyWritePdf : List Fragment → Except Str Bytes) :
    ExportOutputs :=
  let excel := generate_excel_file df customer caseMap
  let html := generate_pdf_html df caseMap
  let pr := render_pdf config hasWeasyprint pdfkitFromString weasyWritePdf html
  { gen_excel_bytes := excel, gen_pdf_bytes := pr.1, pdf_message := pr.2 }

/-- Keyed stable insertion, ingredient of the model of
`sort_values('excel_sort_order')`. -/
def insertByKey (key : Record → Nat) (a : Nat × Record) :
    List (Nat × Record) → List (Nat × Record)
  | [] => [a]
  | b :: t => if key a.2 ≤ key b.2 then a :: b :: t else b :: insertByKey key a t

/-- Keyed insertion sort; on the distinct master-list positions used as the
sort key, it computes the same reordering as pandas `sort_values`. -/
def sortByKey (key : Record → Nat) : List (Nat × Record) → List (Nat × Record)
  | [] => []
  | a :: t => insertByKey key a (sortByKey key t)

/-- The DataFrame `render_export_tab` passes to both generators:
`pd.DataFrame(cart_data)` assigns index labels 0..n-1 in cart order, the
rows are then re-sorted by master-list position
(`sort_values('excel_sort_order')`) and the index is never reset — so the
labels yielded by `iterrows()` are the pre-sort cart positions, not the
positions in the final order. -/
def df_from_cart (cart : List Record) (excelOrder : Record → Nat) :
    List (Nat × Record) :=
  sortByKey excelOrder cart.enum

section Lemmas

/-- Lemma: `find?` returns the first element satisfying the predicate. -/
theorem find?_first {α : Type} (p : α → Bool) (d1 : List α) (x : α) (d2 : List α)
    (hx : p x = true) (h1 : ∀ q ∈ d1, p q = false) :
    List.find? p (d1 ++ x :: d2) = some x := by
  induction d1 with
  | nil => simp [List.find?, hx]
  | cons a t ih =>
    have ha : p a = false := h1 a (by simp)
    simp only [List.cons_append, List.find?_cons, ha]
    exact ih (fun q hq => h1 q (by simp [hq]))

/-- When no key matches any fragment, the resolver returns the marker. -/
theorem get_val_fuzzy_no_match (rd : CaseData) (frags : List Str)
    (h : ∀ f ∈ frags, ∀ q ∈ rd, substrOf (toLowerS f) (toLowerS q.1) = false) :
    get_val_fuzzy rd frags = ['-'] := by
  induction frags with
  | nil => rfl
  | cons k rest ih =>
    have hfind :
        rd.find? (fun p => substrOf (toLowerS k) (toLowerS p.1)) = none := by
      refine List.find?_eq_none.mpr (fun q hq => ?_)
      simp [h k (by simp) q hq]
    simp only [get_val_fuzzy, hfind]
    exact ih (fun f hf => h f (by simp [hf]))

end Lemmas

/-- C4: the attribute resolver tries candidate fragments in the given
priority order and, within a fragment, scans the mapping keys in iteration
order, returning the value of the first key containing the fragment
case-insensitively; when no key matches any fragment it returns the `"-"`
marker. -/
theorem C4_attribute_resolver (rd d1 d2 : CaseData) (p : Str × Str)
    (f1 f2 : List Str) (k : Str)
    (hf1 : ∀ f ∈ f1, ∀ q ∈ rd, substrOf (toLowerS f) (toLowerS q.1) = false)
    (hrd : rd = d1 ++ p :: d2)
    (hp : substrOf (toLowerS k) (toLowerS p.1) = true)
    (hd1 : ∀ q ∈ d1, substrOf (toLowerS k) (toLowerS q.1) = false) :
    get_val_fuzzy rd (f1 ++ k :: f2) = p.2 ∧
    ∀ (rd2 : CaseData) (frags : List Str),
      (∀ f ∈ frags, ∀ q ∈ rd2, substrOf (toLowerS f) (toLowerS q.1) = false) →
      get_val_fuzzy rd2 frags = ['-'] := by
  refine ⟨?_, get_val_fuzzy_no_match⟩
  induction f1 with
  | nil =>
    have hfind :
        rd.find? (fun q => substrOf (toLowerS k) (toLowerS q.1)) = some p := by
      rw [hrd]; exact find?_first _ d1 p d2 hp hd1
    simp [get_val_fuzzy, hfind]
  | cons f fs ih =>
    have hfind :
        rd.find? (fun q => substrOf (toLowerS f) (toLowerS q.1)) = none := by
      refine List.find?_eq_none.mpr (fun q hq => ?_)
      simp [hf1 f (by simp) q hq]
    simp only [List.cons_append, get_val_fuzzy, hfind]
    exact ih (fun g hg => hf1 g (by simp [hg]))

/-- Witness for C4: with keys `["Weight", "Gross Wt"]`, the low-priority
fragment `"Packing"` matches nothing and the fragment `"Gross"` first hits
the key `"Gross Wt"`, so its value is returned. -/
theorem C4_attribute_resolver_witness :
    get_val_fuzzy [("Weight".toList, "w".toList), ("Gross Wt".toList, "g".toList)]
      (["Packing".toList] ++ "Gross".toList :: []) = "g".toList :=
  (C4_attribute_resolver
    [("Weight".toList, "w".toList), ("Gross Wt".toList, "g".toList)]
    [("Weight".toList, "w".toList)] [] ("Gross Wt".toList, "g".toList)
    ["Packing".toList] [] "Gross".toList
    (by decide) rfl (by decide) (by decide)).1

/-- Keys without a `"suffix"` match leave the suffix accumulator unchanged. -/
theorem scan_suffix_stable (l : CaseData) (acc : Str × ℚ)
    (h : ∀ q ∈ l, substrOf "suffix".toList (toLowerS q.1) = false) :
    (l.foldl scanStep acc).1 = acc.1 := by
  induction l generalizing acc with
  | nil => rfl
  | cons kv t ih =>
    have hk := h kv (by simp)
    rw [List.foldl_cons, ih (scanStep acc kv) (fun q hq => h q (by simp [hq]))]
    unfold scanStep
    rw [hk]
    simp

/-- Keys without a `"cbm"` match leave the volume accumulator unchanged. -/
theorem scan_cbm_stable (l : CaseData) (acc : Str × ℚ)
    (h : ∀ q ∈ l, substrOf "cbm".toList (toLowerS q.1) = false) :
    (l.foldl scanStep acc).2 = acc.2 := by
  induction l generalizing acc with
  | nil => rfl
  | cons kv t ih =>
    have hk := h kv (by simp)
    rw [List.foldl_cons, ih (scanStep acc kv) (fun q hq => h q (by simp [hq]))]
    unfold scanStep
    rw [hk]
    simp

/-- C5: when the carton-volume field of a category's case-size entry holds a
non-numeric string, the spreadsheet generator uses `0.0` as that category's
per-carton volume in every data row of that category, and the export still
produces one output row per input record. -/
theorem C5_unparseable_volume_is_zero (df : List (Nat × Record))
    (caseMap : List (Str × CaseData)) (c : Str) (cd xs ys : CaseData)
    (kv : Str × Str)
    (hlk : lookupCase caseMap c = some cd)
    (hcd : cd = xs ++ kv :: ys)
    (hkv : substrOf "cbm".toList (toLowerS kv.1) = true)
    (hys : ∀ q ∈ ys, substrOf "cbm".toList (toLowerS q.1) = false)
    (hbad : parsePyFloat? kv.2 = none) :
    (∀ p ∈ df, p.2.category = c → (excel_row caseMap p.1 p.2).cbm = 0) ∧
    (generate_excel_rows df caseMap).length = df.length := by
  have hscan : (scanCaseData cd).2 = 0 := by
    subst hcd
    rw [scanCaseData, List.foldl_append, List.foldl_cons]
    rw [scan_cbm_stable ys _ hys]
    unfold scanStep
    rw [hkv, hbad]
    simp
  refine ⟨fun p _ hpc => ?_, by simp [generate_excel_rows]⟩
  simp only [excel_row, hpc, hlk]
  simp [hscan]

/-- Witness for C5: a single record of category `"X"` whose case-size entry
maps the key `"CBM"` to `"abc"` yields a zero volume cell. -/
theorem C5_unparseable_volume_is_zero_witness :
    (excel_row [("X".toList, [("CBM".toList, "abc".toList)])] 0
      { catalogue := "A".toList, category := "X".toList, subcategory := none,
        itemName := "R".toList, imageB64 := [], isNew := 0 }).cbm = 0 :=
  (C5_unparseable_volume_is_zero
    [(0, { catalogue := "A".toList, category := "X".toList, subcategory := none,
           itemName := "R".toList, imageB64 := [], isNew := 0 })]
    [("X".toList, [("CBM".toList, "abc".toList)])] "X".toList
    [("CBM".toList, "abc".toList)] [] [] ("CBM".toList, "abc".toList)
    (by decide) rfl (by decide) (by decide) (by decide)).1
    (0, { catalogue := "A".toList, category := "X".toList, subcategory := none,
          itemName := "R".toList, imageB64 := [], isNew := 0 })
    (by simp) rfl

/-- C10: in the spreadsheet generator the carton suffix and carton volume
are resolved by scanning every key with later matches overwriting earlier
ones, so the last matching key wins — in contrast to the first-hit rule of
the document path's `get_val_fuzzy` (demonstrated on a two-key mapping where
the scanner keeps the second value while the resolver returns the first). -/
theorem C10_excel_scan_last_match_wins (cd xs ys : CaseData) (kv : Str × Str)
    (hcd : cd = xs ++ kv :: ys) :
    (substrOf "suffix".toList (toLowerS kv.1) = true →
      (∀ q ∈ ys, substrOf "suffix".toList (toLowerS q.1) = false) →
      (scanCaseData cd).1 = stripS kv.2) ∧
    (substrOf "cbm".toList (toLowerS kv.1) = true →
      (∀ q ∈ ys, substrOf "cbm".toList (toLowerS q.1) = false) →
      (scanCaseData cd).2 =
        (match parsePyFloat? kv.2 with
         | some q => pyRound3 q
         | none => 0)) ∧
    ((scanCaseData [("Suffix A".toList, "p".toList), ("Suffix B".toList, "q".toList)]).1
        = "q".toList ∧
      get_val_fuzzy [("Suffix A".toList, "p".toList), ("Suffix B".toList, "q".toList)]
        ["Suffix".toList] = "p".toList) := by
  subst hcd
  refine ⟨fun hkv hys => ?_, fun hkv hys => ?_, by decide, by decide⟩
  · rw [scanCaseData, List.foldl_append, List.foldl_cons,
      scan_suffix_stable ys _ hys]
    unfold scanStep
    rw [hkv]
    simp
  · rw [scanCaseData, List.foldl_append, List.foldl_cons,
      scan_cbm_stable ys _ hys]
    unfold scanStep
    rw [hkv]
    simp

/-- Witness for C10: with keys `"Suffix A"` then `"Suffix B"`, the scanner
keeps the value of the later key. -/
theorem C10_excel_scan_last_match_wins_witness :
    (scanCaseData [("Suffix A".toList, "p".toList), ("Suffix B".toList, "q".toList)]).1
      = stripS "q".toList :=
  (C10_excel_scan_last_match_wins
    [("Suffix A".toList, "p".toList), ("Suffix B".toList, "q".toList)]
    [("Suffix A".toList, "p".toList)] [] ("Suffix B".toList, "q".toList)
    rfl).1 (by decide) (by decide)

/-- The column-header rewrites all target worksheet row 7. -/
theorem filter_header_other (r c : Nat) (h : r ≠ 7) :
    headerRowWrites.filter (fun w => w.rowOf = r ∧ w.colOf = c) = [] := by
  refine List.filter_eq_nil_iff.mpr (fun w hw => ?_)
  fin_cases hw <;> simp [CellWrite.rowOf, CellWrite.colOf] <;> omega

/-- The summary block writes only to worksheet rows 0–5. -/
theorem filter_summary_other (cust : Str) (n r c : Nat) (h : 8 ≤ r) :
    (excelSummaryWrites cust n).filter (fun w => w.rowOf = r ∧ w.colOf = c) = [] := by
  refine List.filter_eq_nil_iff.mpr (fun w hw => ?_)
  fin_cases hw <;> simp [CellWrite.rowOf, CellWrite.colOf] <;> omega

/-- The only summary-block write at cell C2 is the total-volume formula. -/
theorem filter_summary_c2 (cust : Str) (n : Nat) :
    (excelSummaryWrites cust n).filter (fun w => w.rowOf = 1 ∧ w.colOf = 2) =
      [CellWrite.formula 1 2 ("=SUM(F9:F".toList ++ natToStr (n + 9) ++ ")".toList)] := by
  simp [excelSummaryWrites, List.filter, CellWrite.rowOf, CellWrite.colOf]

/-- The `to_excel` data region only writes at worksheet rows `8 + j` and
beyond. -/
theorem filter_data_outside (rows : List ExcelRow) (j r c : Nat) (h : r < 8 + j) :
    (allDataWrites j rows).filter (fun w => w.rowOf = r ∧ w.colOf = c) = [] := by
  induction rows generalizing j with
  | nil => rfl
  | cons x t ih =>
    rw [allDataWrites, List.filter_append, ih (j + 1) (by omega)]
    have hhead :
        (dataRowWrites j x).filter (fun w => w.rowOf = r ∧ w.colOf = c) = [] := by
      refine List.filter_eq_nil_iff.mpr (fun w hw => ?_)
      fin_cases hw <;> simp [CellWrite.rowOf, CellWrite.colOf] <;> omega
    rw [hhead]
    rfl

/-- In the `to_excel` data region, the only write at worksheet row
`8 + (j + k)`, column 5 is the literal zero of the Total CBM column. -/
theorem filter_data_at (rows : List ExcelRow) (j k : Nat) (hk : k < rows.length) :
    (allDataWrites j rows).filter
        (fun w => w.rowOf = 8 + (j + k) ∧ w.colOf = 5) =
      [CellWrite.val (8 + (j + k)) 5 (CellVal.n 0)] := by
  induction rows generalizing j k with
  | nil => simp at hk
  | cons x t ih =>
    rw [allDataWrites, List.filter_append]
    cases k with
    | zero =>
      rw [filter_data_outside t (j + 1) (8 + (j + 0)) 5 (by omega)]
      simp [dataRowWrites, List.filter, CellWrite.rowOf, CellWrite.colOf]
    | succ k' =>
      have hhead :
          (dataRowWrites j x).filter
              (fun w => w.rowOf = 8 + (j + (k' + 1)) ∧ w.colOf = 5) = [] := by
        refine List.filter_eq_nil_iff.mpr (fun w hw => ?_)
        fin_cases hw <;> simp [CellWrite.rowOf, CellWrite.colOf] <;> omega
      rw [hhead]
      have harr : 8 + (j + (k' + 1)) = 8 + ((j + 1) + k') := by omega
      rw [harr, ih (j + 1) k' (by simpa using hk)]
      simp

/-- The quantity/formula loop only writes at worksheet rows `8 + j` and
beyond. -/
theorem filter_qty_outside (m j r c : Nat) (h : r < 8 + j) :
    (qtyFormulaWrites j m).filter (fun w => w.rowOf = r ∧ w.colOf = c) = [] := by
  induction m generalizing j with
  | zero => rfl
  | succ m' ih =>
    rw [qtyFormulaWrites, List.filter_append, ih (j + 1) (by omega)]
    have hhead :
        ([CellWrite.val (8 + j) 4 (CellVal.n 0),
          CellWrite.formula (8 + j) 5
            ("=D".toList ++ natToStr (j + 9) ++ "*E".toList ++ natToStr (j + 9))].filter
          (fun w => w.rowOf = r ∧ w.colOf = c)) = [] := by
      refine List.filter_eq_nil_iff.mpr (fun w hw => ?_)
      fin_cases hw <;> simp [CellWrite.rowOf, CellWrite.colOf] <;> omega
    rw [hhead]
    rfl

/-- In the quantity/formula loop, the only write at worksheet row
`8 + (j + k)`, column 5 is the Total CBM formula. -/
theorem filter_qty_at (m j k : Nat) (hk : k < m) :
    (qtyFormulaWrites j m).filter
        (fun w => w.rowOf = 8 + (j + k) ∧ w.colOf = 5) =
      [CellWrite.formula (8 + (j + k)) 5
        ("=D".toList ++ natToStr (j + k + 9) ++ "*E".toList ++ natToStr (j + k + 9))] := by
  induction m generalizing j k with
  | zero => omega
  | succ m' ih =>
    rw [qtyFormulaWrites, List.filter_append]
    cases k with
    | zero =>
      rw [filter_qty_outside m' (j + 1) (8 + (j + 0)) 5 (by omega)]
      simp [List.filter, CellWrite.rowOf, CellWrite.colOf]
    | succ k' =>
      have hhead :
          ([CellWrite.val (8 + j) 4 (CellVal.n 0),
            CellWrite.formula (8 + j) 5
              ("=D".toList ++ natToStr (j + 9) ++ "*E".toList ++ natToStr (j + 9))].filter
            (fun w => w.rowOf = 8 + (j + (k' + 1)) ∧ w.colOf = 5)) = [] := by
        refine List.filter_eq_nil_iff.mpr (fun w hw => ?_)
        fin_cases hw <;> simp [CellWrite.rowOf, CellWrite.colOf] <;> omega
      rw [hhead]
      have harr : 8 + (j + (k' + 1)) = 8 + ((j + 1) + k') := by omega
      have harr2 : j + (k' + 1) + 9 = (j + 1) + k' + 9 := by omega
      rw [harr, harr2, ih (j + 1) k' (by omega)]
      simp

/-- C6: in the generated workbook, the final content of every data row's
Total CBM cell (column F) is the live formula `=D{row}*E{row}` multiplying
the per-carton-volume cell by the editable quantity cell — the literal zero
written earlier by the data dump is overwritten — and the final content of
the summary cell C2 is the live formula `=SUM(F9:F{n+9})` over the per-row
total-volume column. -/
theorem C6_total_volume_cells_are_formulas (df : List (Nat × Record))
    (caseMap : List (Str × CaseData)) (customer : Str) :
    (∀ i, i < (generate_excel_rows df caseMap).length →
      lastWriteAt (generate_excel_file df customer caseMap).writes (8 + i) 5 =
        some (CellWrite.formula (8 + i) 5
          ("=D".toList ++ natToStr (i + 9) ++ "*E".toList ++ natToStr (i + 9)))) ∧
    lastWriteAt (generate_excel_file df customer caseMap).writes 1 2 =
      some (CellWrite.formula 1 2
        ("=SUM(F9:F".toList ++
          natToStr ((generate_excel_rows df caseMap).length + 9) ++ ")".toList)) := by
  constructor
  · intro i hi
    rw [lastWriteAt, generate_excel_file]
    simp only [List.filter_append]
    rw [filter_header_other (8 + i) 5 (by omega),
      filter_summary_other customer _ (8 + i) 5 (by omega)]
    have hd := filter_data_at (generate_excel_rows df caseMap) 0 i hi
    simp only [Nat.zero_add] at hd
    rw [hd]
    have hq := filter_qty_at (generate_excel_rows df caseMap).length 0 i hi
    simp only [Nat.zero_add] at hq
    rw [hq]
    simp
  · rw [lastWriteAt, generate_excel_file]
    simp only [List.filter_append]
    rw [filter_header_other 1 2 (by omega),
      filter_data_outside (generate_excel_rows df caseMap) 0 1 2 (by omega),
      filter_summary_c2 customer,
      filter_qty_outside (generate_excel_rows df caseMap).length 0 1 2 (by omega)]
    simp

/-- Shorthand for building concrete records in witnesses. -/
def mkRec (catal categ : String) (sub : Option String) (name : String) : Record :=
  { catalogue := catal.toList, category := categ.toList,
    subcategory := sub.map (fun s => s.toList), itemName := name.toList,
    imageB64 := [], isNew := 0 }

/-- Witness for C6: for a one-record export the final content of the first
Total CBM cell is the row formula, not the zero literal written earlier. -/
theorem C6_total_volume_cells_are_formulas_witness :
    lastWriteAt
        (generate_excel_file [(0, mkRec "A" "X" none "R")] "C".toList []).writes 8 5 =
      some (CellWrite.formula 8 5 ("=D9*E9".toList)) := by
  have h :=
    (C6_total_volume_cells_are_formulas [(0, mkRec "A" "X" none "R")] [] "C".toList).1
      0 (by decide)
  simpa using h

/-- C7: the document renderer is total — it returns either document bytes
tagged with the producing engine's name or no bytes with a human-readable
message; with no backend available it returns the actionable no-engine
message, a raising backend is caught and its message returned, and in every
case (failure included) the spreadsheet handed back to the caller is the
fully generated workbook. -/
theorem C7_render_failure_handling (df : List (Nat × Record))
    (caseMap : List (Str × CaseData)) (customer : Str) (config : Option Unit)
    (hasWeasyprint : Bool)
    (pdfkitFromString weasyWritePdf : List Fragment → Except Str Bytes) :
    (render_export_generate df caseMap customer config hasWeasyprint
        pdfkitFromString weasyWritePdf).gen_excel_bytes =
      generate_excel_file df customer caseMap ∧
    (config = none → hasWeasyprint = false →
      (render_export_generate df caseMap customer config hasWeasyprint
          pdfkitFromString weasyWritePdf).gen_pdf_bytes = none ∧
      (render_export_generate df caseMap customer config hasWeasyprint
          pdfkitFromString weasyWritePdf).pdf_message = noEngineMsg) ∧
    (∀ c e, config = some c →
      pdfkitFromString (generate_pdf_html df caseMap) = Except.error e →
      (render_export_generate df caseMap customer config hasWeasyprint
          pdfkitFromString weasyWritePdf).gen_pdf_bytes = none ∧
      (render_export_generate df caseMap customer config hasWeasyprint
          pdfkitFromString weasyWritePdf).pdf_message = e) ∧
    (∀ e, config = none → hasWeasyprint = true →
      weasyWritePdf (generate_pdf_html df caseMap) = Except.error e →
      (render_export_generate df caseMap customer config hasWeasyprint
          pdfkitFromString weasyWritePdf).gen_pdf_bytes = none ∧
      (render_export_generate df caseMap customer config hasWeasyprint
          pdfkitFromString weasyWritePdf).pdf_message = e) ∧
    ((render_export_generate df caseMap customer config hasWeasyprint
        pdfkitFromString weasyWritePdf).gen_pdf_bytes = none ∨
      ∃ b, (render_export_generate df caseMap customer config hasWeasyprint
          pdfkitFromString weasyWritePdf).gen_pdf_bytes = some b ∧
        ((render_export_generate df caseMap customer config hasWeasyprint
            pdfkitFromString weasyWritePdf).pdf_message = "PDFKit (Local)".toList ∨
          (render_export_generate df caseMap customer config hasWeasyprint
            pdfkitFromString weasyWritePdf).pdf_message = "WeasyPrint (Cloud)".toList)) := by
  refine ⟨rfl, ?_, ?_, ?_, ?_⟩
  · intro hc hw
    simp [render_export_generate, render_pdf, hc, hw]
  · intro c e hc he
    simp [render_export_generate, render_pdf, hc, he]
  · intro e hc hw he
    simp [render_export_generate, render_pdf, hc, hw, he]
  · rcases config with _ | c
    · rcases hw : hasWeasyprint
      · simp [render_export_generate, render_pdf]
      · rcases hres : weasyWritePdf (generate_pdf_html df caseMap) with e | b
        · simp [render_export_generate, render_pdf, hres]
        · exact Or.inr ⟨b, by simp [render_export_generate, render_pdf, hres]⟩
    · rcases hres : pdfkitFromString (generate_pdf_html df caseMap) with e | b
      · simp [render_export_generate, render_pdf, hres]
      · exact Or.inr ⟨b, by simp [render_export_generate, render_pdf, hres]⟩

/-- Witness for C7: with no wkhtmltopdf configuration and no WeasyPrint, the
caller still receives the workbook and the exact no-engine message. -/
theorem C7_render_failure_handling_witness :
    (render_export_generate [] [] "C".toList none false
        (fun _ => Except.error "x".toList) (fun _ => Except.error "x".toList)).gen_pdf_bytes
        = none ∧
    (render_export_generate [] [] "C".toList none false
        (fun _ => Except.error "x".toList) (fun _ => Except.error "x".toList)).pdf_message
        = noEngineMsg :=
  (C7_render_failure_handling [] [] "C".toList none false
    (fun _ => Except.error "x".toList) (fun _ => Except.error "x".toList)).2.1 rfl rfl

/-- Lemma: `cardNumbers` distributes over append. -/
theorem cardNumbers_append (a b : List Fragment) :
    cardNumbers (a ++ b) = cardNumbers a ++ cardNumbers b := by
  simp [cardNumbers]

/-- The catalogue block emits no product card. -/
theorem cardNumbers_catalogueStep (s : GenState) (r : Record) :
    cardNumbers (catalogueStep s r).1 = [] := by
  rw [catalogueStep]
  split
  · rfl
  · split <;> rfl

/-- The case-size fragments contain no product card. -/
theorem cardNumbers_caseSizeFrags (rd : CaseData) :
    cardNumbers (caseSizeFrags rd) = [] := by
  rw [caseSizeFrags]
  split
  · rw [cardNumbers_append]
    split <;> rfl
  · rfl

/-- The category block emits no product card. -/
theorem cardNumbers_categoryStep (caseMap : List (Str × CaseData))
    (s : GenState) (r : Record) :
    cardNumbers (categoryStep caseMap s r).1 = [] := by
  rw [categoryStep]
  split
  · rfl
  · dsimp only
    rw [cardNumbers_append, cardNumbers_append, cardNumbers_caseSizeFrags]
    split <;> rfl

/-- The subcategory block emits no product card. -/
theorem cardNumbers_subcatStep (s : GenState) (r : Record) :
    cardNumbers (subcatStep s r).1 = [] := by
  rw [subcatStep]
  split <;> (try split) <;> rfl

/-- One loop iteration emits exactly one card, numbered `idx + 1`. -/
theorem cardNumbers_pdf_step (caseMap : List (Str × CaseData)) (s : GenState)
    (idx : Nat) (r : Record) :
    cardNumbers (pdf_step caseMap s idx r).1 = [idx + 1] := by
  rw [pdf_step]
  simp only [cardNumbers_append, cardNumbers_catalogueStep,
    cardNumbers_categoryStep, cardNumbers_subcatStep]
  rfl

/-- The product loop's card numbers are the index labels plus one, in row
order. -/
theorem cardNumbers_processRows (caseMap : List (Str × CaseData)) :
    ∀ (df : List (Nat × Record)) (s : GenState),
      cardNumbers (processRows caseMap s df).1 = df.map (fun p => p.1 + 1)
  | [], _ => rfl
  | (idx, r) :: rest, s => by
    rw [processRows]
    simp only [cardNumbers_append, cardNumbers_pdf_step,
      cardNumbers_processRows caseMap rest]
    rfl

/-- The table of contents emits no product card. -/
theorem cardNumbers_toc (df : List (Nat × Record)) :
    cardNumbers (generate_table_of_contents df) = [] := by
  rw [cardNumbers, List.filterMap_eq_nil_iff]
  intro f hf
  rw [generate_table_of_contents] at hf
  rcases List.mem_cons.mp hf with h | h
  · subst h; rfl
  · rcases List.mem_flatMap.mp h with ⟨cat, _, hcat⟩
    rcases List.mem_cons.mp hcat with h2 | h2
    · subst h2; rfl
    · rcases List.mem_map.mp h2 with ⟨c, _, hc⟩
      subst hc; rfl

/-- The card numbers of the full document are the DataFrame index labels
plus one, in row order. -/
theorem cardNumbers_generate_pdf_html (df : List (Nat × Record))
    (caseMap : List (Str × CaseData)) :
    cardNumbers (generate_pdf_html df caseMap) = df.map (fun p => p.1 + 1) := by
  rw [generate_pdf_html]
  simp only [cardNumbers_append, cardNumbers_toc, cardNumbers_processRows]
  have htail :
      cardNumbers
        (if (processRows caseMap initState df).2.categoryOpen then
          [Fragment.categoryClose] else []) = [] := by
    split <;> rfl
  simp [cardNumbers_append, htail, cardNumbers]

/-- The Ref No column is the index labels plus one, in row order. -/
theorem refNos_generate_excel_rows (df : List (Nat × Record))
    (caseMap : List (Str × CaseData)) :
    refNos (generate_excel_rows df caseMap) = df.map (fun p => p.1 + 1) := by
  rw [refNos, generate_excel_rows, List.map_map]
  rfl

/-- Concrete two-item cart whose master-list order swaps the items. -/
def cartPair : List Record := [mkRec "A" "X" none "Rose", mkRec "A" "X" none "Jas"]

/-- A master-list position map placing `"Jas"` before `"Rose"`. -/
def swapOrder (r : Record) : Nat := if r.itemName = "Jas".toList then 0 else 1

/-- C1 (counterexample): for the sorted two-item cart the DataFrame index
labels are the pre-sort positions `[1, 0]`, so the card numbers and Ref No
column both read `[2, 1]` — not the `[1, 2]` demanded by the claim's
"1-based position in the final output order". -/
theorem C1_counterexample_sorted_cart :
    df_from_cart cartPair swapOrder =
      [(1, mkRec "A" "X" none "Jas"), (0, mkRec "A" "X" none "Rose")] ∧
    cardNumbers (generate_pdf_html (df_from_cart cartPair swapOrder) []) = [2, 1] ∧
    refNos (generate_excel_rows (df_from_cart cartPair swapOrder) []) = [2, 1] ∧
    ([2, 1] : List Nat) ≠ [1, 2] := by
  refine ⟨by decide, ?_, by decide, by decide⟩
  decide

/-- C1 (amended): the number on each product card and each row's `Ref No`
are both the row's DataFrame index label plus one; they equal the record's
1-based position in the final output order exactly when the index labels
coincide with the positions (`0..n-1` in order), e.g. when the export
re-sort leaves the cart order unchanged. -/
theorem C1_numbers_are_index_labels_plus_one (df : List (Nat × Record))
    (caseMap : List (Str × CaseData)) :
    cardNumbers (generate_pdf_html df caseMap) = df.map (fun p => p.1 + 1) ∧
    refNos (generate_excel_rows df caseMap) = df.map (fun p => p.1 + 1) ∧
    (df.map Prod.fst = List.range df.length →
      cardNumbers (generate_pdf_html df caseMap) =
        (List.range df.length).map (fun i => i + 1)) := by
  refine ⟨cardNumbers_generate_pdf_html df caseMap,
    refNos_generate_excel_rows df caseMap, fun h => ?_⟩
  rw [cardNumbers_generate_pdf_html df caseMap]
  calc df.map (fun p => p.1 + 1) = (df.map Prod.fst).map (fun i => i + 1) := by
        rw [List.map_map]; rfl
    _ = (List.range df.length).map (fun i => i + 1) := by rw [h]

/-- Witness for C1 (amended): an unsorted two-row DataFrame with index
labels `0, 1` gets card numbers `[1, 2]`. -/
theorem C1_numbers_are_index_labels_plus_one_witness :
    cardNumbers (generate_pdf_html
      [(0, mkRec "A" "X" none "Rose"), (1, mkRec "A" "X" none "Jas")] []) = [1, 2] := by
  have h :=
    (C1_numbers_are_index_labels_plus_one
      [(0, mkRec "A" "X" none "Rose"), (1, mkRec "A" "X" none "Jas")] []).2.2 (by decide)
  rw [h]
  decide

/-- C9: for every DataFrame the card number printed in the document and the
`Ref No` of the same record's spreadsheet row agree row-for-row, because
both are the record's index label plus one — including when those labels
differ from the records' positions in the final output. -/
theorem C9_card_numbers_match_ref_nos (df : List (Nat × Record))
    (caseMap : List (Str × CaseData)) :
    cardNumbers (generate_pdf_html df caseMap) =
      refNos (generate_excel_rows df caseMap) := by
  rw [cardNumbers_generate_pdf_html df caseMap,
    refNos_generate_excel_rows df caseMap]

/-- The catalogue block never emits a subcategory header. -/
theorem no_subcat_in_catalogueStep (s : GenState) (r : Record) :
    ∀ v, Fragment.subcatHeader v ∉ (catalogueStep s r).1 := by
  intro v
  rw [catalogueStep]
  split
  · simp
  · split <;> simp

/-- The case-size fragments never contain a subcategory header. -/
theorem no_subcat_in_caseSizeFrags (rd : CaseData) :
    ∀ v, Fragment.subcatHeader v ∉ caseSizeFrags rd := by
  intro v
  rw [caseSizeFrags]
  split
  · split <;> simp
  · simp

/-- The category block never emits a subcategory header. -/
theorem no_subcat_in_categoryStep (caseMap : List (Str × CaseData))
    (s : GenState) (r : Record) :
    ∀ v, Fragment.subcatHeader v ∉ (categoryStep caseMap s r).1 := by
  intro v
  rw [categoryStep]
  split
  · simp
  · dsimp only
    intro hmem
    rcases List.mem_append.mp hmem with h1 | h1
    · rcases List.mem_append.mp h1 with h2 | h2
      · revert h2; split <;> simp
      · simp at h2
    · exact no_subcat_in_caseSizeFrags _ v h1

/-- C3: a record whose subcategory is absent, blank after stripping, or
`"n/a"` in any letter case emits no subcategory header, whatever the loop
state. -/
theorem C3_empty_subcategory_no_header (caseMap : List (Str × CaseData))
    (s : GenState) (idx : Nat) (r : Record)
    (h : r.subcategory = none ∨
      (∃ v, r.subcategory = some v ∧ stripS v = []) ∨
      (∃ v, r.subcategory = some v ∧ toUpperS (stripS v) = "N/A".toList)) :
    ∀ v, Fragment.subcatHeader v ∉ (pdf_step caseMap s idx r).1 := by
  have hse : subEmits (subVal r) = false := by
    rcases h with h | ⟨v, hv, hs⟩ | ⟨v, hv, hs⟩
    · rw [subVal, h]; decide
    · rw [subVal, hv]; simp only [Option.getD_some]; rw [hs]; decide
    · rw [subVal, hv]; simp only [Option.getD_some]
      simp [subEmits, hs]
  intro v
  rw [pdf_step]
  dsimp only
  intro hmem
  rcases List.mem_append.mp hmem with h1 | h1
  · rcases List.mem_append.mp h1 with h2 | h2
    · rcases List.mem_append.mp h2 with h3 | h3
      · exact no_subcat_in_catalogueStep s r v h3
      · exact no_subcat_in_categoryStep caseMap _ r v h3
    · rw [subcatStep, hse] at h2
      simp at h2
  · simp [cardFrag] at h1

/-- Witness for C3: a record whose subcategory is `" n/A "` (blank padding,
mixed case) emits no subcategory header from the initial state. -/
theorem C3_empty_subcategory_no_header_witness :
    Fragment.subcatHeader "n/A".toList ∉
      (pdf_step [] initState 0 (mkRec "A" "X" (some " n/A ") "R")).1 :=
  C3_empty_subcategory_no_header [] initState 0 (mkRec "A" "X" (some " n/A ") "R")
    (Or.inr (Or.inr ⟨" n/A ".toList, by decide, by decide⟩)) "n/A".toList

/-- A record already inside its catalogue makes the catalogue block a no-op. -/
theorem catalogueStep_same (s : GenState) (r : Record)
    (h : s.currentCatalogue = some r.catalogue) : catalogueStep s r = ([], s) := by
  rw [catalogueStep, if_pos h]

/-- A record already inside its category makes the category block a no-op. -/
theorem categoryStep_same (caseMap : List (Str × CaseData)) (s : GenState)
    (r : Record) (h : s.currentCategory = some r.category) :
    categoryStep caseMap s r = ([], s) := by
  rw [categoryStep, if_pos h]

/-- After the catalogue block the catalogue tracker names the record's
catalogue. -/
theorem catalogueStep_state (s : GenState) (r : Record) :
    (catalogueStep s r).2.currentCatalogue = some r.catalogue := by
  rw [catalogueStep]
  split
  · assumption
  · rfl

/-- The category block leaves the catalogue tracker unchanged. -/
theorem categoryStep_keeps_cat (caseMap : List (Str × CaseData)) (s : GenState)
    (r : Record) :
    (categoryStep caseMap s r).2.currentCatalogue = s.currentCatalogue := by
  rw [categoryStep]
  split <;> rfl

/-- After the category block the category tracker names the record's
category. -/
theorem categoryStep_state (caseMap : List (Str × CaseData)) (s : GenState)
    (r : Record) :
    (categoryStep caseMap s r).2.currentCategory = some r.category := by
  rw [categoryStep]
  split
  · assumption
  · rfl

/-- The subcategory block leaves the catalogue and category trackers
unchanged. -/
theorem subcatStep_keeps_cats (s : GenState) (r : Record) :
    (subcatStep s r).2.currentCatalogue = s.currentCatalogue ∧
    (subcatStep s r).2.currentCategory = s.currentCategory := by
  rw [subcatStep]
  split
  · split <;> exact ⟨rfl, rfl⟩
  · exact ⟨rfl, rfl⟩

/-- After the subcategory block of an emitting record, the subcategory
tracker names its stripped value. -/
theorem subcatStep_state_sub (s : GenState) (r : Record)
    (h : subEmits (subVal r) = true) :
    (subcatStep s r).2.currentSubcategory = some (subVal r) := by
  rw [subcatStep, if_pos h]
  split
  · rfl
  · next h2 => exact not_not.mp h2

/-- A non-emitting record makes the subcategory block a no-op. -/
theorem subcatStep_noemit (s : GenState) (r : Record)
    (h : subEmits (subVal r) = false) : subcatStep s r = ([], s) := by
  rw [subcatStep, h]
  simp

/-- A record whose stripped subcategory equals the tracked one emits no
header and changes nothing. -/
theorem subcatStep_skip (s : GenState) (r : Record)
    (h : s.currentSubcategory = some (subVal r)) : subcatStep s r = ([], s) := by
  rw [subcatStep]
  split
  · rw [if_neg (by simp [h])]
  · rfl

/-- A record whose stripped subcategory differs from the tracked one emits
the header and updates the tracker. -/
theorem subcatStep_emit (s : GenState) (r : Record)
    (h : subEmits (subVal r) = true)
    (h2 : s.currentSubcategory ≠ some (subVal r)) :
    subcatStep s r =
      ([Fragment.subcatHeader (subVal r)],
       { s with currentSubcategory := some (subVal r) }) := by
  rw [subcatStep, if_pos h, if_pos h2]

/-- Inside the record's own catalogue and category, one loop iteration is
just the subcategory block followed by the card. -/
theorem pdf_step_in_category (caseMap : List (Str × CaseData)) (s : GenState)
    (idx : Nat) (r : Record)
    (h1 : s.currentCatalogue = some r.catalogue)
    (h2 : s.currentCategory = some r.category) :
    pdf_step caseMap s idx r =
      ((subcatStep s r).1 ++ [cardFrag idx r], (subcatStep s r).2) := by
  rw [pdf_step]
  rw [catalogueStep_same s r h1]
  dsimp only
  rw [categoryStep_same caseMap s r h2]
  simp

/-- After one loop iteration the trackers name the record's own catalogue
and category, whatever the preceding state. -/
theorem pdf_step_state_after (caseMap : List (Str × CaseData)) (s : GenState)
    (idx : Nat) (r : Record) :
    (pdf_step caseMap s idx r).2.currentCatalogue = some r.catalogue ∧
    (pdf_step caseMap s idx r).2.currentCategory = some r.category := by
  rw [pdf_step]
  dsimp only
  constructor
  · rw [(subcatStep_keeps_cats _ r).1, categoryStep_keeps_cat,
      catalogueStep_state]
  · rw [(subcatStep_keeps_cats _ r).2, categoryStep_state]

/-- After one loop iteration over an emitting record the subcategory
tracker names that record's stripped subcategory. -/
theorem pdf_step_sub_after (caseMap : List (Str × CaseData)) (s : GenState)
    (idx : Nat) (r : Record) (h : subEmits (subVal r) = true) :
    (pdf_step caseMap s idx r).2.currentSubcategory = some (subVal r) := by
  rw [pdf_step]
  dsimp only
  exact subcatStep_state_sub _ r h

/-- Inside its own catalogue and category, a non-emitting record adds only
its card and leaves the state untouched. -/
theorem pdf_step_id (caseMap : List (Str × CaseData)) (s : GenState)
    (idx : Nat) (r : Record)
    (h1 : s.currentCatalogue = some r.catalogue)
    (h2 : s.currentCategory = some r.category)
    (h3 : subEmits (subVal r) = false) :
    pdf_step caseMap s idx r = ([cardFrag idx r], s) := by
  rw [pdf_step_in_category caseMap s idx r h1 h2, subcatStep_noemit s r h3]
  simp

/-- The loop over a concatenation is the loop over the first part followed
by the loop over the second from the reached state. -/
theorem processRows_append (caseMap : List (Str × CaseData))
    (xs ys : List (Nat × Record)) (s : GenState) :
    processRows caseMap s (xs ++ ys) =
      ((processRows caseMap s xs).1 ++
        (processRows caseMap (processRows caseMap s xs).2 ys).1,
       (processRows caseMap (processRows caseMap s xs).2 ys).2) := by
  induction xs generalizing s with
  | nil => simp [processRows]
  | cons q t ih =>
    obtain ⟨idx, r⟩ := q
    rw [List.cons_append, processRows, processRows]
    dsimp only
    rw [ih]
    simp [List.append_assoc]

/-- Records matching the tracked catalogue/category and not emitting a
subcategory header leave the loop state unchanged. -/
theorem processRows_stable (caseMap : List (Str × CaseData))
    (m : List (Nat × Record)) (s : GenState)
    (h : ∀ q ∈ m, s.currentCatalogue = some q.2.catalogue ∧
      s.currentCategory = some q.2.category ∧ subEmits (subVal q.2) = false) :
    (processRows caseMap s m).2 = s := by
  induction m with
  | nil => rfl
  | cons q t ih =>
    obtain ⟨idx, r⟩ := q
    rw [processRows]
    dsimp only
    have hq := h (idx, r) (by simp)
    rw [pdf_step_id caseMap s idx r hq.1 hq.2.1 hq.2.2]
    exact ih (fun q hq2 => h q (by simp [hq2]))

/-- C2: within one pass, a record whose non-empty subcategory equals the
immediately preceding non-empty subcategory (records in between all empty,
all in the same catalogue and category) emits no subcategory header; if the
preceding non-empty subcategory differs, the header is emitted again. -/
theorem C2_subcat_dedup_is_adjacency_only (caseMap : List (Str × CaseData))
    (p m : List (Nat × Record)) (ia ib : Nat) (a b : Record)
    (hcat : b.catalogue = a.catalogue) (hcatg : b.category = a.category)
    (hm : ∀ q ∈ m, q.2.catalogue = a.catalogue ∧ q.2.category = a.category ∧
      subEmits (subVal q.2) = false)
    (ha : subEmits (subVal a) = true) (hb : subEmits (subVal b) = true) :
    (subVal b = subVal a →
      ∀ v, Fragment.subcatHeader v ∉ fragsFor caseMap (p ++ (ia, a) :: m) ib b) ∧
    (subVal b ≠ subVal a →
      Fragment.subcatHeader (subVal b) ∈
        fragsFor caseMap (p ++ (ia, a) :: m) ib b) := by
  have hs : (processRows caseMap initState (p ++ (ia, a) :: m)).2.currentCatalogue
        = some a.catalogue ∧
      (processRows caseMap initState (p ++ (ia, a) :: m)).2.currentCategory
        = some a.category ∧
      (processRows caseMap initState (p ++ (ia, a) :: m)).2.currentSubcategory
        = some (subVal a) := by
    rw [processRows_append]
    dsimp only
    rw [processRows]
    dsimp only
    have h1 := (pdf_step_state_after caseMap
      (processRows caseMap initState p).2 ia a).1
    have h2 := (pdf_step_state_after caseMap
      (processRows caseMap initState p).2 ia a).2
    have h3 := pdf_step_sub_after caseMap
      (processRows caseMap initState p).2 ia a ha
    have hst : (processRows caseMap
        (pdf_step caseMap (processRows caseMap initState p).2 ia a).2 m).2 =
        (pdf_step caseMap (processRows caseMap initState p).2 ia a).2 :=
      processRows_stable caseMap m _ (fun q hq =>
        ⟨by rw [h1, (hm q hq).1], by rw [h2, (hm q hq).2.1], (hm q hq).2.2⟩)
    rw [hst]
    exact ⟨h1, h2, h3⟩
  obtain ⟨h1, h2, h3⟩ := hs
  constructor
  · intro heq v
    rw [fragsFor, pdf_step_in_category caseMap _ ib b
        (by rw [h1, hcat]) (by rw [h2, hcatg]),
      subcatStep_skip _ b (by rw [h3, heq])]
    simp [cardFrag]
  · intro hne
    rw [fragsFor, pdf_step_in_category caseMap _ ib b
        (by rw [h1, hcat]) (by rw [h2, hcatg]),
      subcatStep_emit _ b hb (by rw [h3]; simp; intro hx; exact hne hx.symm)]
    simp

/-- Witness for C2: after subcategory `"S"` and an interposed record with no
subcategory, a repeated `"S"` emits no header, while a `"T"` record in the
same position does emit one. -/
theorem C2_subcat_dedup_is_adjacency_only_witness :
    Fragment.subcatHeader "S".toList ∉
      fragsFor [] [(0, mkRec "A" "X" (some "S") "p1"), (1, mkRec "A" "X" none "p2")]
        2 (mkRec "A" "X" (some "S") "p3") ∧
    Fragment.subcatHeader "T".toList ∈
      fragsFor [] [(0, mkRec "A" "X" (some "S") "p1"), (1, mkRec "A" "X" none "p2")]
        2 (mkRec "A" "X" (some "T") "p3") :=
  ⟨(C2_subcat_dedup_is_adjacency_only [] [] [(1, mkRec "A" "X" none "p2")] 0 2
      (mkRec "A" "X" (some "S") "p1") (mkRec "A" "X" (some "S") "p3")
      (by decide) (by decide) (by decide) (by decide) (by decide)).1
      (by decide) "S".toList,
    (C2_subcat_dedup_is_adjacency_only [] [] [(1, mkRec "A" "X" none "p2")] 0 2
      (mkRec "A" "X" (some "S") "p1") (mkRec "A" "X" (some "T") "p3")
      (by decide) (by decide) (by decide) (by decide) (by decide)).2
      (by decide)⟩

/-- An alphanumeric character is not whitespace. -/
theorem alnum_not_whitespace (c : Char) (h : c.isAlphanum = true) :
    c.isWhitespace = false := by
  cases hw : c.isWhitespace
  · rfl
  · exfalso
    have hww : ((c = ' ' ∨ c = '\t') ∨ c = '\x0d') ∨ c = '\n' := by
      simpa [Char.isWhitespace] using hw
    rcases hww with ((h1 | h1) | h1) | h1 <;> subst h1 <;> exact absurd h (by decide)

/-- The table-based lowering preserves alphanumeric characters. -/
theorem asciiLower_alnum (c : Char) (h : c.isAlphanum = true) :
    (asciiLower c).isAlphanum = true := by
  rw [asciiLower]
  cases hf : lowerPairs.find? (fun p => p.1 = c) with
  | none => exact h
  | some pr =>
    have hmem := List.mem_of_find?_eq_some hf
    have hall : ∀ q ∈ lowerPairs, (q.2).isAlphanum = true := by decide
    exact hall pr hmem

/-- Collapsing dashes only drops characters, never introduces new ones. -/
theorem mem_collapseDash (l : Str) : ∀ ch ∈ collapseDash l, ch ∈ l := by
  induction l with
  | nil => simp [collapseDash]
  | cons c t ih =>
    intro ch hch
    rw [collapseDash] at hch
    cases hc : collapseDash t with
    | nil =>
      rw [hc] at hch
      simp at hch
      simp [hch]
    | cons d u =>
      rw [hc] at hch
      dsimp only at hch
      by_cases hdd : c = '-' ∧ d = '-'
      · rw [if_pos hdd] at hch
        have hin : ch ∈ collapseDash t := by rw [hc]; exact hch
        exact List.mem_cons_of_mem c (ih ch hin)
      · rw [if_neg hdd] at hch
        rcases List.mem_cons.mp hch with h1 | h1
        · simp [h1]
        · have hin : ch ∈ collapseDash t := by rw [hc]; exact h1
          exact List.mem_cons_of_mem c (ih ch hin)

/-- Every character of an anchor identifier is a non-whitespace character,
either alphanumeric or the dash separator. -/
theorem create_safe_id_safe (name : Str) :
    ∀ ch ∈ create_safe_id name,
      ch.isWhitespace = false ∧ (ch.isAlphanum = true ∨ ch = '-') := by
  intro ch hch
  have hm : ch ∈ name.map sanitizeChar := mem_collapseDash _ ch hch
  rcases List.mem_map.mp hm with ⟨c0, _, hc0⟩
  subst hc0
  rw [sanitizeChar]
  split
  · next halnum =>
    have h2 := asciiLower_alnum c0 halnum
    exact ⟨alnum_not_whitespace _ h2, Or.inl h2⟩
  · exact ⟨by decide, Or.inr rfl⟩

/-- Every fragment emitted by one loop iteration has one of the eight body
shapes; in particular a category heading always carries the anchor id
computed from its own category name. -/
theorem pdf_step_shapes (caseMap : List (Str × CaseData)) (s : GenState)
    (idx : Nat) (r : Record) :
    ∀ f ∈ (pdf_step caseMap s idx r).1,
      f = Fragment.categoryClose ∨
      f = Fragment.catalogueHeading r.catalogue (!s.isFirstItem) ∨
      f = Fragment.categoryBlockOpen ∨
      f = Fragment.categoryHeading
            ("category-".toList ++ create_safe_id r.category) r.category ∨
      (∃ d, f = Fragment.caseSizeInfo d) ∨
      (∃ p g n l b h2 c, f = Fragment.caseSizeTable p g n l b h2 c) ∨
      f = Fragment.subcatHeader (subVal r) ∨
      f = cardFrag idx r := by
  intro f hf
  rw [pdf_step] at hf
  dsimp only at hf
  rcases List.mem_append.mp hf with h1 | h1
  · rcases List.mem_append.mp h1 with h2 | h2
    · rcases List.mem_append.mp h2 with h3 | h3
      · -- catalogue block
        rw [catalogueStep] at h3
        revert h3
        split
        · simp
        · split <;> intro h3 <;> simp at h3 <;>
            first
            | (rcases h3 with h | h <;> simp [h])
            | simp [h3]
      · -- category block
        rw [categoryStep] at h3
        revert h3
        split
        · simp
        · dsimp only
          intro h3
          rcases List.mem_append.mp h3 with h4 | h4
          · rcases List.mem_append.mp h4 with h5 | h5
            · revert h5; split <;> intro h5 <;> simp at h5 <;> simp [h5]
            · simp at h5
              rcases h5 with h | h <;> simp [h]
          · rw [caseSizeFrags] at h4
            revert h4
            split
            · intro h4
              rcases List.mem_append.mp h4 with h5 | h5
              · revert h5; split <;> intro h5 <;> simp at h5 <;> subst h5 <;> simp
              · simp at h5
                subst h5
                refine Or.inr (Or.inr (Or.inr (Or.inr (Or.inr (Or.inl ?_)))))
                exact ⟨_, _, _, _, _, _, _, rfl⟩
            · simp
    · -- subcategory block
      rw [subcatStep] at h2
      revert h2
      split
      · split
        · intro h2; simp at h2; simp [h2]
        · simp
      · simp
  · simp at h1
    simp [h1]

/-- Any category heading emitted by the product loop carries the anchor id
computed from its own displayed name. -/
theorem heading_in_body (caseMap : List (Str × CaseData)) :
    ∀ (df : List (Nat × Record)) (s : GenState) (id nm : Str),
      Fragment.categoryHeading id nm ∈ (processRows caseMap s df).1 →
      id = "category-".toList ++ create_safe_id nm := by
  intro df
  induction df with
  | nil => intro s id nm h; simp [processRows] at h
  | cons q t ih =>
    obtain ⟨idx, r⟩ := q
    intro s id nm h
    rw [processRows] at h
    dsimp only at h
    rcases List.mem_append.mp h with h1 | h1
    · rcases pdf_step_shapes caseMap s idx r _ h1 with
        h | h | h | h | ⟨d, h⟩ | ⟨p, g, n, l, b, h2, c, h⟩ | h | h <;>
        first
        | (injection h with hid hnm; subst hnm; exact hid)
        | simp [cardFrag] at h
    · exact ih _ id nm h1

/-- The product loop never emits a TOC card. -/
theorem no_tocCard_in_body (caseMap : List (Str × CaseData)) :
    ∀ (df : List (Nat × Record)) (s : GenState) (bg href label : Str),
      Fragment.tocCard bg href label ∉ (processRows caseMap s df).1 := by
  intro df
  induction df with
  | nil => intro s bg href label h; simp [processRows] at h
  | cons q t ih =>
    obtain ⟨idx, r⟩ := q
    intro s bg href label h
    rw [processRows] at h
    dsimp only at h
    rcases List.mem_append.mp h with h1 | h1
    · rcases pdf_step_shapes caseMap s idx r _ h1 with
        h | h | h | h | ⟨d, h⟩ | ⟨p, g, n, l, b, h2, c, h⟩ | h | h <;>
        simp [cardFrag] at h
    · exact ih _ bg href label h1

/-- The table of contents contains no category heading. -/
theorem no_heading_in_toc (df : List (Nat × Record)) (id nm : Str) :
    Fragment.categoryHeading id nm ∉ generate_table_of_contents df := by
  intro h
  rw [generate_table_of_contents] at h
  rcases List.mem_cons.mp h with h | h
  · simp at h
  · rcases List.mem_flatMap.mp h with ⟨cat, _, hcat⟩
    rcases List.mem_cons.mp hcat with h2 | h2
    · simp at h2
    · rcases List.mem_map.mp h2 with ⟨c, _, hc⟩
      simp at hc

/-- Every TOC card links to the anchor computed from its own label. -/
theorem tocCard_in_toc (df : List (Nat × Record)) (bg href label : Str) :
    Fragment.tocCard bg href label ∈ generate_table_of_contents df →
      href = '#' :: ("category-".toList ++ create_safe_id label) := by
  intro h
  rw [generate_table_of_contents] at h
  rcases List.mem_cons.mp h with h | h
  · simp at h
  · rcases List.mem_flatMap.mp h with ⟨cat, _, hcat⟩
    rcases List.mem_cons.mp hcat with h2 | h2
    · simp at h2
    · rcases List.mem_map.mp h2 with ⟨c, _, hc⟩
      injection hc with hbg hhref hlabel
      subst hlabel
      exact hhref.symm

/-- Every category heading of the assembled document carries the anchor id
computed from its own name. -/
theorem heading_in_pdf_html (df : List (Nat × Record))
    (caseMap : List (Str × CaseData)) (id nm : Str) :
    Fragment.categoryHeading id nm ∈ generate_pdf_html df caseMap →
      id = "category-".toList ++ create_safe_id nm := by
  intro h
  rw [generate_pdf_html] at h
  rcases List.mem_append.mp h with h1 | h1
  · rcases List.mem_append.mp h1 with h2 | h2
    · rcases List.mem_append.mp h2 with h3 | h3
      · rcases List.mem_append.mp h3 with h4 | h4
        · rcases List.mem_append.mp h4 with h5 | h5
          · simp at h5
          · exact absurd h5 (no_heading_in_toc df id nm)
        · simp at h4
      · exact heading_in_body caseMap df initState id nm h3
    · revert h2; split <;> simp
  · simp at h1

/-- Every TOC card of the assembled document links to the anchor computed
from its own label. -/
theorem tocCard_in_pdf_html (df : List (Nat × Record))
    (caseMap : List (Str × CaseData)) (bg href label : Str) :
    Fragment.tocCard bg href label ∈ generate_pdf_html df caseMap →
      href = '#' :: ("category-".toList ++ create_safe_id label) := by
  intro h
  rw [generate_pdf_html] at h
  rcases List.mem_append.mp h with h1 | h1
  · rcases List.mem_append.mp h1 with h2 | h2
    · rcases List.mem_append.mp h2 with h3 | h3
      · rcases List.mem_append.mp h3 with h4 | h4
        · rcases List.mem_append.mp h4 with h5 | h5
          · simp at h5
          · exact tocCard_in_toc df bg href label h5
        · simp at h4
      · exact absurd h3 (no_tocCard_in_body caseMap df initState bg href label)
    · revert h2; split <;> simp
  · simp at h1

/-- C8: the anchor identifier is a pure function of the category name with
no whitespace or reserved characters (every character is alphanumeric or the
dash), every TOC card's link target equals `#` followed by the id of any
grid heading with the same category name, and two grid headings for the same
name always carry the same id. -/
theorem C8_toc_links_match_heading_ids (df : List (Nat × Record))
    (caseMap : List (Str × CaseData)) :
    (∀ name ch, ch ∈ create_safe_id name →
      ch.isWhitespace = false ∧ (ch.isAlphanum = true ∨ ch = '-')) ∧
    (∀ bg href label id nm,
      Fragment.tocCard bg href label ∈ generate_pdf_html df caseMap →
      Fragment.categoryHeading id nm ∈ generate_pdf_html df caseMap →
      nm = label → href = '#' :: id) ∧
    (∀ id1 id2 nm,
      Fragment.categoryHeading id1 nm ∈ generate_pdf_html df caseMap →
      Fragment.categoryHeading id2 nm ∈ generate_pdf_html df caseMap →
      id1 = id2) := by
  refine ⟨fun name => create_safe_id_safe name, ?_, ?_⟩
  · intro bg href label id nm hcard hhead hnl
    rw [tocCard_in_pdf_html df caseMap bg href label hcard,
      heading_in_pdf_html df caseMap id nm hhead, hnl]
  · intro id1 id2 nm h1 h2
    rw [heading_in_pdf_html df caseMap id1 nm h1,
      heading_in_pdf_html df caseMap id2 nm h2]

/-- Witness for C8: for a one-record export of category `"B C"` the TOC card
target is `#` plus the heading id `category-b-c`. -/
theorem C8_toc_links_match_heading_ids_witness :
    ("#category-b-c".toList : Str) = '#' :: "category-b-c".toList :=
  (C8_toc_links_match_heading_ids [(0, mkRec "A" "B C" none "R")] []).2.1
    [] "#category-b-c".toList "B C".toList "category-b-c".toList "B C".toList
    (by decide) (by decide) rfl
